import Mathlib

/- Shallow embedding of the two snake-game engines of the repository:
   `src/ai_snake_game.py` (class `SnakeGame`, the continuous hand-tracking
   model) and `src/classic_snake_game.py` (class `ClassicSnakeGame`, the
   discrete turtle model).

   Conventions of the embedding:
   * Screen coordinates are integral (`ℤ × ℤ`): the hand-tracker landmark
     positions and every `random.randint` result are integers.
   * `math.hypot` (and turtle's `distance`) return nonnegative reals; a real
     square root is noncomputable, so the continuous model is parameterised
     by the scalar type `α` of stored lengths (any `LinearOrderedCommRing`,
     of which `ℝ` is an instance) together with the distance function
     `hypot : (ℤ × ℤ) → (ℤ × ℤ) → α`, and every comparison `hypot ... < c`
     the source makes on a single distance (`check_collision`, the
     food-distance test of the classic game) is embedded exactly by the
     equivalent squared comparison `distSq ... < c ^ 2`, which agrees with
     the true Euclidean metric on integer points.
   * `random.randint a b` is modelled by `randint a b seed`: an explicit
     seed is threaded through every call that may draw a random number, and
     `randint` realises exactly the documented contract of `randint` (a
     value in the closed interval `[a, b]`). -/

/-- Embedding of `random.randint a b` with an explicit seed: some value in `[a, b]`. -/
def randint (a b : ℤ) (s : ℕ) : ℤ :=
  a + (s : ℤ) % (b - a + 1)

/-- Squared Euclidean distance between two integer points; `math.hypot dx dy < c`
with `c ≥ 0` holds exactly when `distSq _ _ < c ^ 2`. -/
def distSq (p q : ℤ × ℤ) : ℤ :=
  (p.1 - q.1) ^ 2 + (p.2 - q.2) ^ 2

/-- Embedding of `SnakeGame.randomize_food_location`: `(randint(100, 700), randint(100, 500))`. -/
def randomize_food_location (sx sy : ℕ) : ℤ × ℤ :=
  (randint 100 700 sx, randint 100 500 sy)

/-- The food image is 50×50 (resized on load, and the generated fallback is 50×50). -/
def food_width : ℤ := 50

/-- Height of the 50×50 food image. -/
def food_height : ℤ := 50

/-- State of `class SnakeGame` in `ai_snake_game.py` (the fields mutated by the
game logic; image/rendering fields are out of scope). `α` is the scalar type
of the stored arc lengths (`ℝ` in the source; kept generic so that concrete
instances can be evaluated). -/
structure SnakeGame (α : Type) where
  points : List (ℤ × ℤ)
  lengths : List α
  current_length : α
  allowed_length : α
  previous_head : ℤ × ℤ
  food_position : ℤ × ℤ
  score : ℕ
  high_score : ℕ
  game_over : Bool
deriving DecidableEq, Repr

variable {α : Type} [LinearOrderedCommRing α]

/-- Embedding of `SnakeGame.__init__`: empty body, `allowed_length = 100`, food randomized. -/
def SnakeGame.init (sx sy : ℕ) : SnakeGame α where
  points := []
  lengths := []
  current_length := 0
  allowed_length := 100
  previous_head := (0, 0)
  food_position := randomize_food_location sx sy
  score := 0
  high_score := 0
  game_over := false

/-- Embedding of `SnakeGame.reset_game`. -/
def SnakeGame.reset_game (g : SnakeGame α) (sx sy : ℕ) : SnakeGame α :=
  { points := []
    lengths := []
    current_length := 0
    allowed_length := 100
    previous_head := (0, 0)
    food_position := randomize_food_location sx sy
    score := 0
    high_score := if g.high_score < g.score then g.score else g.high_score
    game_over := false }

/-- Embedding of `SnakeGame.check_collision`: with more than 50 points, compare the head
against `points[:-50]` (all points but the 50 newest); `math.hypot ... < 15`
is embedded exactly as `distSq ... < 225`. -/
def check_collision (points : List (ℤ × ℤ)) (head : ℤ × ℤ) : Bool :=
  if 50 < points.length then
    (points.take (points.length - 50)).any fun bp => decide (distSq head bp < 225)
  else
    false

/-- The `while` loop of `SnakeGame._trim_snake_length`, by recursion on the
`lengths` list: while `current_length > allowed_length` and lengths remain,
drop the oldest length (and the oldest point) and subtract it. -/
def trimAux : List α → List (ℤ × ℤ) → α → α → List α × List (ℤ × ℤ) × α
  | [], pts, cur, _ => ([], pts, cur)
  | l :: ls, pts, cur, allowed =>
    if allowed < cur then trimAux ls pts.tail (cur - l) allowed
    else (l :: ls, pts, cur)

/-- Embedding of `SnakeGame._trim_snake_length`. -/
def SnakeGame.trim_snake_length (g : SnakeGame α) : SnakeGame α :=
  let t := trimAux g.lengths g.points g.current_length g.allowed_length
  { g with lengths := t.1, points := t.2.1, current_length := t.2.2 }

/-- The bounding-box test of `SnakeGame._check_food_collision`:
`rx - w < cx < rx + w and ry - h < cy < ry + h` with half extents 25. -/
def SnakeGame.food_hit (g : SnakeGame α) (cx cy : ℤ) : Prop :=
  g.food_position.1 - food_width / 2 < cx ∧ cx < g.food_position.1 + food_width / 2 ∧
  g.food_position.2 - food_height / 2 < cy ∧ cy < g.food_position.2 + food_height / 2

instance (g : SnakeGame α) (cx cy : ℤ) : Decidable (g.food_hit cx cy) := by
  unfold SnakeGame.food_hit
  infer_instance

/-- Embedding of `SnakeGame._check_food_collision`: on a hit, relocate the food, grow
`allowed_length` by 30 and the score by 1. -/
def SnakeGame.check_food_collision (g : SnakeGame α) (cx cy : ℤ) (sx sy : ℕ) : SnakeGame α :=
  if g.food_hit cx cy then
    { g with food_position := randomize_food_location sx sy
             allowed_length := g.allowed_length + 30
             score := g.score + 1 }
  else g

/-- Lines 123–128 of `SnakeGame.update`: append the new head, append the
travelled distance, add it to `current_length`, commit `previous_head`. -/
def SnakeGame.advance_body (g : SnakeGame α) (hypot : (ℤ × ℤ) → (ℤ × ℤ) → α)
    (head : ℤ × ℤ) : SnakeGame α :=
  { g with points := g.points ++ [head]
           lengths := g.lengths ++ [hypot head g.previous_head]
           current_length := g.current_length + hypot head g.previous_head
           previous_head := head }

/-- Embedding of `SnakeGame.update` (state part; rendering is out of scope): no-op while
`game_over`; otherwise advance, trim, check food, then check self-collision
and set `game_over` on a hit. -/
def SnakeGame.update (g : SnakeGame α) (hypot : (ℤ × ℤ) → (ℤ × ℤ) → α)
    (head : ℤ × ℤ) (sx sy : ℕ) : SnakeGame α :=
  if g.game_over then g
  else
    let g1 := g.advance_body hypot head
    let g2 := g1.trim_snake_length
    let g3 := g2.check_food_collision head.1 head.2 sx sy
    if check_collision g3.points head then { g3 with game_over := true } else g3

/-- A finite sequence of `update` calls, each with its head position and the
seeds its food relocation may consume. -/
def SnakeGame.runUpdates (hypot : (ℤ × ℤ) → (ℤ × ℤ) → α) :
    SnakeGame α → List ((ℤ × ℤ) × ℕ × ℕ) → SnakeGame α
  | g, [] => g
  | g, (h, sx, sy) :: rest => SnakeGame.runUpdates hypot (g.update hypot h sx sy) rest

/-- The `head.direction` strings of `classic_snake_game.py`. -/
inductive Direction
  | up
  | down
  | left
  | right
  | stop
deriving DecidableEq, Repr

/-- State of `class ClassicSnakeGame` in `classic_snake_game.py` (the fields
mutated by the game logic; turtle/screen objects are out of scope). -/
structure ClassicSnakeGame where
  delay : ℚ
  score : ℕ
  high_score : ℕ
  is_paused : Bool
  segments : List (ℤ × ℤ)
  head : ℤ × ℤ
  direction : Direction
  food : ℤ × ℤ
deriving DecidableEq, Repr

/-- Embedding of `ClassicSnakeGame.__init__`: delay 0.1, head at the origin stopped,
no segments, food at `(0, 100)`. -/
def ClassicSnakeGame.init : ClassicSnakeGame where
  delay := 1 / 10
  score := 0
  high_score := 0
  is_paused := false
  segments := []
  head := (0, 0)
  direction := .stop
  food := (0, 100)

/-- Embedding of `ClassicSnakeGame.go_up`: set direction to up unless heading down. -/
def ClassicSnakeGame.go_up (c : ClassicSnakeGame) : ClassicSnakeGame :=
  if c.direction = .down then c else { c with direction := .up }

/-- Embedding of `ClassicSnakeGame.go_down`: set direction to down unless heading up. -/
def ClassicSnakeGame.go_down (c : ClassicSnakeGame) : ClassicSnakeGame :=
  if c.direction = .up then c else { c with direction := .down }

/-- Embedding of `ClassicSnakeGame.go_left`: set direction to left unless heading right. -/
def ClassicSnakeGame.go_left (c : ClassicSnakeGame) : ClassicSnakeGame :=
  if c.direction = .right then c else { c with direction := .left }

/-- Embedding of `ClassicSnakeGame.go_right`: set direction to right unless heading left. -/
def ClassicSnakeGame.go_right (c : ClassicSnakeGame) : ClassicSnakeGame :=
  if c.direction = .left then c else { c with direction := .right }

/-- Embedding of `ClassicSnakeGame.move`: one 20-unit step in the current direction. -/
def ClassicSnakeGame.move (c : ClassicSnakeGame) : ClassicSnakeGame :=
  match c.direction with
  | .up => { c with head := (c.head.1, c.head.2 + 20) }
  | .down => { c with head := (c.head.1, c.head.2 - 20) }
  | .left => { c with head := (c.head.1 - 20, c.head.2) }
  | .right => { c with head := (c.head.1 + 20, c.head.2) }
  | .stop => c

/-- Embedding of `ClassicSnakeGame.spawn_food`: both coordinates from `randint(-270, 270)`. -/
def spawn_food (sx sy : ℕ) : ℤ × ℤ :=
  (randint (-270) 270 sx, randint (-270) 270 sy)

/-- Embedding of `ClassicSnakeGame.move_segments`: each segment adopts its predecessor's
position and the first segment moves to the head (net effect on the list). -/
def ClassicSnakeGame.move_segments (c : ClassicSnakeGame) : ClassicSnakeGame :=
  match c.segments with
  | [] => c
  | _ :: _ => { c with segments := c.head :: c.segments.dropLast }

/-- Embedding of `ClassicSnakeGame.check_wall_collision`: `abs(x) > 290 or abs(y) > 290`. -/
def ClassicSnakeGame.check_wall_collision (c : ClassicSnakeGame) : Bool :=
  decide (290 < |c.head.1|) || decide (290 < |c.head.2|)

/-- Embedding of `ClassicSnakeGame.check_self_collision`: some segment within distance 20
of the head; `distance < 20` is embedded exactly as `distSq < 400`. -/
def ClassicSnakeGame.check_self_collision (c : ClassicSnakeGame) : Bool :=
  c.segments.any fun s => decide (distSq s c.head < 400)

/-- Embedding of `ClassicSnakeGame.reset_game`: re-centre the head stopped, clear the
segments, fold the score into the high score, reset score and delay.
(The food is left untouched by the source.) -/
def ClassicSnakeGame.reset_game (c : ClassicSnakeGame) : ClassicSnakeGame :=
  { c with head := (0, 0)
           direction := .stop
           segments := []
           high_score := if c.high_score < c.score then c.score else c.high_score
           score := 0
           delay := 1 / 10 }

/-- The food-consumption block of `ClassicSnakeGame.run` (lines 250–262):
respawn the food, append one segment (a fresh turtle starts at the origin),
add 10 to the score, shrink the delay by 0.002 while above 0.05, and fold
the new score into the high score. -/
def ClassicSnakeGame.food_step (c : ClassicSnakeGame) (sx sy : ℕ) : ClassicSnakeGame :=
  { c with food := spawn_food sx sy
           segments := c.segments ++ [(0, 0)]
           score := c.score + 10
           delay := if 1 / 20 < c.delay then c.delay - 1 / 500 else c.delay
           high_score := if c.high_score < c.score + 10 then c.score + 10 else c.high_score }

/-- One iteration of the `while` loop of `ClassicSnakeGame.run`: when paused,
nothing happens; otherwise wall check (with an immediate reset on a hit, the
iteration then continuing), food check at the current head, segment shift,
head move, then self-collision check (again with an immediate reset). -/
def ClassicSnakeGame.run_tick (c : ClassicSnakeGame) (sx sy : ℕ) : ClassicSnakeGame :=
  if c.is_paused then c
  else
    let c1 := if c.check_wall_collision then c.reset_game else c
    let c2 := if distSq c1.head c1.food < 400 then c1.food_step sx sy else c1
    let c3 := c2.move_segments
    let c4 := c3.move
    if c4.check_self_collision then c4.reset_game else c4

/-! Concrete states used by witnesses and counterexamples. -/

/-- A concrete computable stand-in for the distance function: the taxicab
distance. On every evaluation performed in the concrete runs below the move
is axis-aligned or zero, where the taxicab distance coincides with the
Euclidean distance `math.hypot` computes. -/
def h0 : (ℤ × ℤ) → (ℤ × ℤ) → ℤ :=
  fun p q => ((p.1 - q.1).natAbs + (p.2 - q.2).natAbs : ℕ)

/-- A playing continuous-model state: 50 coincident points at the origin with
zero stored lengths, food box centred at `(10, 10)` (so a head at the origin
is inside it), `allowed_length` 100. -/
def g0 : SnakeGame ℤ :=
  { points := List.replicate 50 (0, 0)
    lengths := List.replicate 50 0
    current_length := 0
    allowed_length := 100
    previous_head := (0, 0)
    food_position := (10, 10)
    score := 0
    high_score := 0
    game_over := false }

/-- The state `g0` after game over. -/
def gOver : SnakeGame ℤ :=
  { g0 with game_over := true }

/-- A 51-point body, all points at the origin. -/
def pts51 : List (ℤ × ℤ) :=
  List.replicate 51 (0, 0)

/-- A discrete-model state whose head at `(300, 0)` is beyond the wall, with a
positive score. -/
def s4 : ClassicSnakeGame :=
  { delay := 1 / 10
    score := 10
    high_score := 0
    is_paused := false
    segments := []
    head := (300, 0)
    direction := .stop
    food := (200, 200) }

/-- A discrete-model state whose food sits at `(1000, 1000)`, far outside the
spawn bounds. -/
def c6 : ClassicSnakeGame :=
  { delay := 1 / 10
    score := 5
    high_score := 2
    is_paused := false
    segments := [(0, 20)]
    head := (40, 40)
    direction := .right
    food := (1000, 1000) }

/-- A discrete-model state whose head at the origin is within distance 20 of
the food at `(0, 10)`. -/
def c7 : ClassicSnakeGame :=
  { delay := 1 / 10
    score := 0
    high_score := 0
    is_paused := false
    segments := []
    head := (0, 0)
    direction := .stop
    food := (0, 10) }

/-- A discrete-model state heading down. -/
def cDown : ClassicSnakeGame :=
  { ClassicSnakeGame.init with direction := .down }

/-! Helper lemmas about the trimming loop. -/

/-- The trimming loop keeps `current_length` equal to the sum of the remaining
lengths whenever it starts that way. -/
theorem trimAux_sum (ls : List α) (pts : List (ℤ × ℤ)) (cur allowed : α)
    (h : cur = ls.sum) :
    (trimAux ls pts cur allowed).2.2 = (trimAux ls pts cur allowed).1.sum := by
  induction ls generalizing pts cur with
  | nil => simpa [trimAux] using h
  | cons l ls ih =>
    rw [trimAux]
    by_cases hc : allowed < cur
    · rw [if_pos hc]
      exact ih pts.tail (cur - l) (by rw [h, List.sum_cons]; ring)
    · rw [if_neg hc]
      exact h

/-- The trimming loop pops a point exactly when it pops a length, so it keeps
the two lists the same size. -/
theorem trimAux_length (ls : List α) (pts : List (ℤ × ℤ)) (cur allowed : α)
    (h : pts.length = ls.length) :
    (trimAux ls pts cur allowed).2.1.length = (trimAux ls pts cur allowed).1.length := by
  induction ls generalizing pts cur with
  | nil => simpa [trimAux] using h
  | cons l ls ih =>
    rw [trimAux]
    by_cases hc : allowed < cur
    · rw [if_pos hc]
      exact ih pts.tail (cur - l) (by simp [List.length_tail, h])
    · rw [if_neg hc]
      exact h

/-- After the trimming loop, `current_length ≤ allowed_length` (given the sum
invariant and a nonnegative allowance). -/
theorem trimAux_le (ls : List α) (pts : List (ℤ × ℤ)) (cur allowed : α)
    (hsum : cur = ls.sum) (h0 : 0 ≤ allowed) :
    (trimAux ls pts cur allowed).2.2 ≤ allowed := by
  induction ls generalizing pts cur with
  | nil =>
    rw [trimAux]
    simp only [List.sum_nil] at hsum
    simpa [hsum] using h0
  | cons l ls ih =>
    rw [trimAux]
    by_cases hc : allowed < cur
    · rw [if_pos hc]
      exact ih pts.tail (cur - l) (by rw [hsum, List.sum_cons]; ring)
    · rw [if_neg hc]
      exact not_lt.mp hc

/-- The trimming loop only removes whole segments from the tail end: the
surviving lengths are a suffix of the original list. -/
theorem trimAux_suffix (ls : List α) (pts : List (ℤ × ℤ)) (cur allowed : α) :
    List.IsSuffix (trimAux ls pts cur allowed).1 ls := by
  induction ls generalizing pts cur with
  | nil => simp [trimAux]
  | cons l ls ih =>
    rw [trimAux]
    by_cases hc : allowed < cur
    · rw [if_pos hc]
      exact (ih pts.tail (cur - l)).trans (List.suffix_cons l ls)
    · rw [if_neg hc]

/-- The trimming loop never empties the length list when the newest length
already fits within the allowance. -/
theorem trimAux_ne_nil (ls : List α) (pts : List (ℤ × ℤ)) (cur allowed : α)
    (hsum : cur = ls.sum) (l : α) (hlast : ls.getLast? = some l) (hle : l ≤ allowed) :
    (trimAux ls pts cur allowed).1 ≠ [] := by
  induction ls generalizing pts cur with
  | nil => simp at hlast
  | cons a ls ih =>
    rw [trimAux]
    by_cases hc : allowed < cur
    · rw [if_pos hc]
      cases ls with
      | nil =>
        exfalso
        simp only [List.getLast?_singleton, Option.some.injEq] at hlast
        rw [hsum, List.sum_cons, List.sum_nil, add_zero, hlast] at hc
        exact absurd (hc.trans_le hle) (lt_irrefl allowed)
      | cons b ls' =>
        refine ih pts.tail (cur - a) ?_ ?_
        · rw [hsum, List.sum_cons]; ring
        · rwa [List.getLast?_cons_cons] at hlast
    · rw [if_neg hc]
      exact List.cons_ne_nil a ls

/-! Field bookkeeping for the update pipeline. -/

theorem check_food_points (g : SnakeGame α) (cx cy : ℤ) (sx sy : ℕ) :
    (g.check_food_collision cx cy sx sy).points = g.points := by
  unfold SnakeGame.check_food_collision
  split <;> rfl

theorem check_food_lengths (g : SnakeGame α) (cx cy : ℤ) (sx sy : ℕ) :
    (g.check_food_collision cx cy sx sy).lengths = g.lengths := by
  unfold SnakeGame.check_food_collision
  split <;> rfl

theorem check_food_current_length (g : SnakeGame α) (cx cy : ℤ) (sx sy : ℕ) :
    (g.check_food_collision cx cy sx sy).current_length = g.current_length := by
  unfold SnakeGame.check_food_collision
  split <;> rfl

theorem check_food_game_over (g : SnakeGame α) (cx cy : ℤ) (sx sy : ℕ) :
    (g.check_food_collision cx cy sx sy).game_over = g.game_over := by
  unfold SnakeGame.check_food_collision
  split <;> rfl

theorem check_food_allowed_ge (g : SnakeGame α) (cx cy : ℤ) (sx sy : ℕ) :
    g.allowed_length ≤ (g.check_food_collision cx cy sx sy).allowed_length := by
  unfold SnakeGame.check_food_collision
  split
  · simp only
    linarith
  · exact le_refl _

theorem trim_allowed (g : SnakeGame α) :
    g.trim_snake_length.allowed_length = g.allowed_length := rfl

theorem trim_score (g : SnakeGame α) :
    g.trim_snake_length.score = g.score := rfl

theorem trim_game_over (g : SnakeGame α) :
    g.trim_snake_length.game_over = g.game_over := rfl

/-- Unfolding of `update` on a playing state, written as the explicit pipeline. -/
theorem update_playing (g : SnakeGame α) (hypot : (ℤ × ℤ) → (ℤ × ℤ) → α)
    (head : ℤ × ℤ) (sx sy : ℕ) (hplay : g.game_over = false) :
    g.update hypot head sx sy =
      (if check_collision
          (((g.advance_body hypot head).trim_snake_length).check_food_collision
            head.1 head.2 sx sy).points head then
        { ((g.advance_body hypot head).trim_snake_length).check_food_collision
            head.1 head.2 sx sy with game_over := true }
      else
        ((g.advance_body hypot head).trim_snake_length).check_food_collision
          head.1 head.2 sx sy) := by
  unfold SnakeGame.update
  rw [hplay]
  rfl

/-- One `update` call preserves the tracked-sum invariant. -/
theorem update_sum_inv (g : SnakeGame α) (hypot : (ℤ × ℤ) → (ℤ × ℤ) → α)
    (head : ℤ × ℤ) (sx sy : ℕ) (h : g.current_length = g.lengths.sum) :
    (g.update hypot head sx sy).current_length = (g.update hypot head sx sy).lengths.sum := by
  cases hgo : g.game_over with
  | true =>
    unfold SnakeGame.update
    rw [hgo]
    simpa using h
  | false =>
    rw [update_playing g hypot head sx sy hgo]
    have h1 : (g.advance_body hypot head).current_length =
        (g.advance_body hypot head).lengths.sum := by
      simp [SnakeGame.advance_body, List.sum_append, h]
    have h2 : ((g.advance_body hypot head).trim_snake_length).current_length =
        ((g.advance_body hypot head).trim_snake_length).lengths.sum :=
      trimAux_sum _ _ _ _ h1
    split
    · simpa [check_food_current_length, check_food_lengths] using h2
    · simpa [check_food_current_length, check_food_lengths] using h2

/-- One `update` call preserves equality of the two list sizes. -/
theorem update_length_inv (g : SnakeGame α) (hypot : (ℤ × ℤ) → (ℤ × ℤ) → α)
    (head : ℤ × ℤ) (sx sy : ℕ) (h : g.points.length = g.lengths.length) :
    (g.update hypot head sx sy).points.length = (g.update hypot head sx sy).lengths.length := by
  cases hgo : g.game_over with
  | true =>
    unfold SnakeGame.update
    rw [hgo]
    simpa using h
  | false =>
    rw [update_playing g hypot head sx sy hgo]
    have h1 : (g.advance_body hypot head).points.length =
        (g.advance_body hypot head).lengths.length := by
      simp [SnakeGame.advance_body, h]
    have h2 : ((g.advance_body hypot head).trim_snake_length).points.length =
        ((g.advance_body hypot head).trim_snake_length).lengths.length :=
      trimAux_length _ _ _ _ h1
    split
    · simpa [check_food_points, check_food_lengths] using h2
    · simpa [check_food_points, check_food_lengths] using h2

/-- One `update` call preserves the allowance/score coupling. -/
theorem update_allowed_inv (g : SnakeGame α) (hypot : (ℤ × ℤ) → (ℤ × ℤ) → α)
    (head : ℤ × ℤ) (sx sy : ℕ) (h : g.allowed_length = 100 + 30 * (g.score : α)) :
    (g.update hypot head sx sy).allowed_length =
      100 + 30 * ((g.update hypot head sx sy).score : α) := by
  cases hgo : g.game_over with
  | true =>
    unfold SnakeGame.update
    rw [hgo]
    simpa using h
  | false =>
    rw [update_playing g hypot head sx sy hgo]
    have h2 : ((g.advance_body hypot head).trim_snake_length).allowed_length =
        100 + 30 * (((g.advance_body hypot head).trim_snake_length).score : α) := h
    have h3 : (((g.advance_body hypot head).trim_snake_length).check_food_collision
          head.1 head.2 sx sy).allowed_length =
        100 + 30 * ((((g.advance_body hypot head).trim_snake_length).check_food_collision
          head.1 head.2 sx sy).score : α) := by
      unfold SnakeGame.check_food_collision
      split
      · simp only
        rw [h2]
        push_cast
        ring
      · exact h2
    split
    · simpa using h3
    · exact h3

/-- Invariants preserved by single updates hold along every run. -/
theorem runUpdates_preserve (hypot : (ℤ × ℤ) → (ℤ × ℤ) → α) (P : SnakeGame α → Prop)
    (hstep : ∀ (g : SnakeGame α) (head : ℤ × ℤ) (sx sy : ℕ),
      P g → P (g.update hypot head sx sy)) :
    ∀ (inputs : List ((ℤ × ℤ) × ℕ × ℕ)) (g : SnakeGame α),
      P g → P (SnakeGame.runUpdates hypot g inputs) := by
  intro inputs
  induction inputs with
  | nil =>
    intro g hg
    simpa [SnakeGame.runUpdates] using hg
  | cons i rest ih =>
    intro g hg
    obtain ⟨h, sx, sy⟩ := i
    rw [SnakeGame.runUpdates]
    exact ih _ (hstep g h sx sy hg)

/-! Claim theorems. -/

/-- Claim C1: in the continuous model, after every call to `update` (including
its trimming phase) and after `reset_game`, the tracked `current_length`
equals the sum of the elements of `lengths` exactly, for every finite
sequence of head positions (and seeds) fed to `update`. -/
theorem C1_current_length_eq_sum (hypot : (ℤ × ℤ) → (ℤ × ℤ) → α) (sx sy : ℕ) :
    (∀ inputs : List ((ℤ × ℤ) × ℕ × ℕ),
      (SnakeGame.runUpdates hypot (SnakeGame.init sx sy : SnakeGame α) inputs).current_length =
        (SnakeGame.runUpdates hypot (SnakeGame.init sx sy : SnakeGame α) inputs).lengths.sum) ∧
    (∀ g : SnakeGame α,
      (g.reset_game sx sy).current_length = (g.reset_game sx sy).lengths.sum) := by
  constructor
  · intro inputs
    refine runUpdates_preserve hypot
      (fun g => g.current_length = g.lengths.sum)
      (fun g head tx ty hg => update_sum_inv g hypot head tx ty hg)
      inputs _ ?_
    simp [SnakeGame.init]
  · intro g
    simp [SnakeGame.reset_game]

/-- Claim C8 (amended): in the continuous model the `lengths` list always has
exactly the same number of elements as `points` — not one fewer: the code
appends a length for the very first point too, measured from the initial
`previous_head` `(0, 0)`. The invariant holds after construction, after every
update sequence, and after reset. -/
theorem C8_lengths_length_eq_points_length (hypot : (ℤ × ℤ) → (ℤ × ℤ) → α) (sx sy : ℕ) :
    (∀ inputs : List ((ℤ × ℤ) × ℕ × ℕ),
      (SnakeGame.runUpdates hypot (SnakeGame.init sx sy : SnakeGame α) inputs).points.length =
        (SnakeGame.runUpdates hypot (SnakeGame.init sx sy : SnakeGame α) inputs).lengths.length) ∧
    (∀ g : SnakeGame α,
      (g.reset_game sx sy).points.length = (g.reset_game sx sy).lengths.length) := by
  constructor
  · intro inputs
    refine runUpdates_preserve hypot
      (fun g => g.points.length = g.lengths.length)
      (fun g head tx ty hg => update_length_inv g hypot head tx ty hg)
      inputs _ ?_
    simp [SnakeGame.init]
  · intro g
    simp [SnakeGame.reset_game]

/-- Claim C8, counterexample to the claim as stated: neither at construction
nor after an update does `points` have one element more than `lengths`; the
two lists always have equal size (here 0 = 0 and 51 = 51). -/
theorem C8_counterexample :
    ¬ ((SnakeGame.init 0 0 : SnakeGame ℤ).points.length =
        (SnakeGame.init 0 0 : SnakeGame ℤ).lengths.length + 1) ∧
    ¬ ((g0.update h0 (0, 0) 0 0).points.length =
        (g0.update h0 (0, 0) 0 0).lengths.length + 1) := by
  decide

/-- Claim C10: every state reachable from construction, or from a reset, by
any sequence of update calls satisfies `allowed_length = 100 + 30 * score`. -/
theorem C10_allowed_length_coupled_to_score (hypot : (ℤ × ℤ) → (ℤ × ℤ) → α) (sx sy : ℕ) :
    (∀ inputs : List ((ℤ × ℤ) × ℕ × ℕ),
      (SnakeGame.runUpdates hypot (SnakeGame.init sx sy : SnakeGame α) inputs).allowed_length =
        100 + 30 * ((SnakeGame.runUpdates hypot
          (SnakeGame.init sx sy : SnakeGame α) inputs).score : α)) ∧
    (∀ (g : SnakeGame α) (inputs : List ((ℤ × ℤ) × ℕ × ℕ)),
      (SnakeGame.runUpdates hypot (g.reset_game sx sy) inputs).allowed_length =
        100 + 30 * ((SnakeGame.runUpdates hypot (g.reset_game sx sy) inputs).score : α)) := by
  constructor
  · intro inputs
    refine runUpdates_preserve hypot
      (fun g => g.allowed_length = 100 + 30 * (g.score : α))
      (fun g head tx ty hg => update_allowed_inv g hypot head tx ty hg)
      inputs _ ?_
    simp [SnakeGame.init]
  · intro g inputs
    refine runUpdates_preserve hypot
      (fun g => g.allowed_length = 100 + 30 * (g.score : α))
      (fun g head tx ty hg => update_allowed_inv g hypot head tx ty hg)
      inputs _ ?_
    simp [SnakeGame.reset_game]

/-- Claim C5: `check_collision` returns false whenever `points` has 50 or
fewer elements; with more than 50 elements it returns true exactly when some
body point other than the 50 most recently added ones lies within Euclidean
distance strictly less than 15 of the head (embedded exactly as the squared
comparison `distSq < 225`). -/
theorem C5_check_collision_spec (points : List (ℤ × ℤ)) (head : ℤ × ℤ) :
    (points.length ≤ 50 → check_collision points head = false) ∧
    (50 < points.length →
      (check_collision points head = true ↔
        ∃ bp ∈ points.take (points.length - 50), distSq head bp < 225)) := by
  constructor
  · intro h
    unfold check_collision
    rw [if_neg (not_lt.mpr h)]
  · intro h
    unfold check_collision
    rw [if_pos h, List.any_eq_true]
    simp

/-- Claim C5, witness: a 51-point body whose oldest point coincides with the
head collides; a single-point body never does. -/
theorem C5_witness :
    check_collision pts51 (0, 0) = true ∧ check_collision [(0, 0)] (0, 0) = false :=
  ⟨((C5_check_collision_spec pts51 (0, 0)).2 (by decide)).mpr
      ⟨(0, 0), by decide, by decide⟩,
   (C5_check_collision_spec [(0, 0)] (0, 0)).1 (by decide)⟩

/-- Claim C2 (amended): in the continuous model, once trimming has run at the
end of an update call on a playing state (with the tracked-sum and list-size
invariants, and a nonnegative allowance), `current_length ≤ allowed_length`
holds, and trimming removes whole tail segments one at a time and never
splits a segment (the surviving lengths are a suffix of the pre-trim list);
the `points` list is non-empty after the update provided the newly added
increment is at most `allowed_length` — a single increment larger than
`allowed_length` empties the body even while `allowed_length > 0`. -/
theorem C2_trim_bound (hypot : (ℤ × ℤ) → (ℤ × ℤ) → α) (g : SnakeGame α) (head : ℤ × ℤ)
    (sx sy : ℕ) (hplay : g.game_over = false)
    (hsum : g.current_length = g.lengths.sum)
    (hlen : g.points.length = g.lengths.length)
    (hallow : 0 ≤ g.allowed_length) :
    (g.update hypot head sx sy).current_length ≤ (g.update hypot head sx sy).allowed_length ∧
    List.IsSuffix (g.update hypot head sx sy).lengths
      (g.lengths ++ [hypot head g.previous_head]) ∧
    (hypot head g.previous_head ≤ g.allowed_length →
      (g.update hypot head sx sy).points ≠ []) := by
  have h1 : (g.advance_body hypot head).current_length =
      (g.advance_body hypot head).lengths.sum := by
    simp [SnakeGame.advance_body, List.sum_append, hsum]
  have hTcur : ((g.advance_body hypot head).trim_snake_length).current_length ≤
      g.allowed_length := trimAux_le _ _ _ _ h1 hallow
  have hTsuf : List.IsSuffix ((g.advance_body hypot head).trim_snake_length).lengths
      (g.lengths ++ [hypot head g.previous_head]) := trimAux_suffix _ _ _ _
  rw [update_playing g hypot head sx sy hplay]
  refine ⟨?_, ?_, ?_⟩
  · split
    · show (((g.advance_body hypot head).trim_snake_length).check_food_collision
          head.1 head.2 sx sy).current_length ≤
        (((g.advance_body hypot head).trim_snake_length).check_food_collision
          head.1 head.2 sx sy).allowed_length
      rw [check_food_current_length]
      exact le_trans hTcur (check_food_allowed_ge
        ((g.advance_body hypot head).trim_snake_length) head.1 head.2 sx sy)
    · rw [check_food_current_length]
      exact le_trans hTcur (check_food_allowed_ge
        ((g.advance_body hypot head).trim_snake_length) head.1 head.2 sx sy)
  · split
    · show List.IsSuffix (((g.advance_body hypot head).trim_snake_length).check_food_collision
          head.1 head.2 sx sy).lengths (g.lengths ++ [hypot head g.previous_head])
      rw [check_food_lengths]
      exact hTsuf
    · rw [check_food_lengths]
      exact hTsuf
  · intro hd
    have hTne : ((g.advance_body hypot head).trim_snake_length).lengths ≠ [] :=
      trimAux_ne_nil _ _ _ _ h1 (hypot head g.previous_head)
        (List.getLast?_concat _) hd
    have hTlen : ((g.advance_body hypot head).trim_snake_length).points.length =
        ((g.advance_body hypot head).trim_snake_length).lengths.length :=
      trimAux_length _ _ _ _ (by simp [SnakeGame.advance_body, hlen])
    have hTpts : ((g.advance_body hypot head).trim_snake_length).points ≠ [] := by
      refine List.ne_nil_of_length_pos ?_
      rw [hTlen]
      exact List.length_pos.mpr hTne
    split
    · show (((g.advance_body hypot head).trim_snake_length).check_food_collision
          head.1 head.2 sx sy).points ≠ []
      rw [check_food_points]
      exact hTpts
    · rw [check_food_points]
      exact hTpts

/-- Claim C2, counterexample to the claim as stated: from the initial state, a
single update whose head jumped 200 units (an axis-aligned move, so the
stand-in distance function agrees with `math.hypot`) trims away the entire
body: `points` is empty afterwards although `allowed_length = 100 > 0`. -/
theorem C2_counterexample :
    ((SnakeGame.init 0 0 : SnakeGame ℤ).update h0 (200, 0) 0 0).points = [] ∧
    ((SnakeGame.init 0 0 : SnakeGame ℤ).update h0 (200, 0) 0 0).allowed_length = 100 := by
  decide

/-- Claim C2, witness: the amended bound applied to the initial state and a
head move of length 7 ≤ 100. -/
theorem C2_witness :
    ((SnakeGame.init 0 0 : SnakeGame ℤ).update h0 (3, 4) 0 0).current_length ≤
      ((SnakeGame.init 0 0 : SnakeGame ℤ).update h0 (3, 4) 0 0).allowed_length ∧
    List.IsSuffix ((SnakeGame.init 0 0 : SnakeGame ℤ).update h0 (3, 4) 0 0).lengths
      ((SnakeGame.init 0 0 : SnakeGame ℤ).lengths ++
        [h0 (3, 4) (SnakeGame.init 0 0 : SnakeGame ℤ).previous_head]) ∧
    ((SnakeGame.init 0 0 : SnakeGame ℤ).update h0 (3, 4) 0 0).points ≠ [] := by
  have h := C2_trim_bound h0 (SnakeGame.init 0 0 : SnakeGame ℤ) (3, 4) 0 0
    (by decide) (by decide) (by decide) (by decide)
  exact ⟨h.1, h.2.1, h.2.2 (by decide)⟩

/-- Claim C3 (amended): in every continuous-model update call made while
playing, the body is advanced and trimmed first, then food consumption is
checked and handled, and only then is self-collision checked; a detected
collision sets the game-over flag, but food consumption on that same tick
has already been handled — it is checked before, not after, the collision
check, so a tick that both eats and collides still scores and grows. -/
theorem C3_food_handled_before_collision (hypot : (ℤ × ℤ) → (ℤ × ℤ) → α)
    (g : SnakeGame α) (head : ℤ × ℤ) (sx sy : ℕ)
    (hplay : g.game_over = false)
    (hfood : ((g.advance_body hypot head).trim_snake_length).food_hit head.1 head.2)
    (hcol : check_collision
      (((g.advance_body hypot head).trim_snake_length).check_food_collision
        head.1 head.2 sx sy).points head = true) :
    (g.update hypot head sx sy).game_over = true ∧
    (g.update hypot head sx sy).score = g.score + 1 ∧
    (g.update hypot head sx sy).allowed_length = g.allowed_length + 30 := by
  rw [update_playing g hypot head sx sy hplay, if_pos hcol]
  refine ⟨rfl, ?_, ?_⟩
  · show (((g.advance_body hypot head).trim_snake_length).check_food_collision
        head.1 head.2 sx sy).score = g.score + 1
    unfold SnakeGame.check_food_collision
    rw [if_pos hfood]
    rfl
  · show (((g.advance_body hypot head).trim_snake_length).check_food_collision
        head.1 head.2 sx sy).allowed_length = g.allowed_length + 30
    unfold SnakeGame.check_food_collision
    rw [if_pos hfood]
    rfl

/-- Claim C3, counterexample to the claim as stated: from `g0` (50 coincident
points at the origin, food box containing the origin), the update at head
`(0, 0)` detects a self-collision — yet the score has still increased from 0
to 1, because food consumption is handled before the collision check rather
than being skipped on a collision tick. -/
theorem C3_counterexample :
    (g0.update h0 (0, 0) 0 0).game_over = true ∧
    (g0.update h0 (0, 0) 0 0).score = 1 ∧
    g0.score = 0 := by
  decide

/-- Claim C3, witness: the amended order applied to the concrete state `g0`. -/
theorem C3_witness :
    (g0.update h0 (0, 0) 0 0).game_over = true ∧
    (g0.update h0 (0, 0) 0 0).score = g0.score + 1 ∧
    (g0.update h0 (0, 0) 0 0).allowed_length = g0.allowed_length + 30 :=
  C3_food_handled_before_collision h0 g0 (0, 0) 0 0 (by decide) (by decide) (by decide)

/-- Claim C4 (amended): in the continuous model the game-over flag becomes
true exactly on an update in which the self-collision check fires while
playing (an update while already over is a no-op), and it is cleared only by
`reset_game`. The discrete model has no game-over flag at all: a detected
collision triggers an automatic `reset_game` inside the same tick, with no
explicit reset request (see the counterexample). -/
theorem C4_game_over_flag (hypot : (ℤ × ℤ) → (ℤ × ℤ) → α) (g : SnakeGame α)
    (head : ℤ × ℤ) (sx sy : ℕ) :
    (g.game_over = true → g.update hypot head sx sy = g) ∧
    (g.game_over = false →
      (g.update hypot head sx sy).game_over =
        check_collision (((g.advance_body hypot head).trim_snake_length).check_food_collision
          head.1 head.2 sx sy).points head) ∧
    (g.reset_game sx sy).game_over = false := by
  refine ⟨?_, ?_, rfl⟩
  · intro hgo
    unfold SnakeGame.update
    rw [hgo]
    rfl
  · intro hplay
    rw [update_playing g hypot head sx sy hplay]
    cases hcc : check_collision
        (((g.advance_body hypot head).trim_snake_length).check_food_collision
          head.1 head.2 sx sy).points head with
    | true =>
      rfl
    | false =>
      rw [if_neg Bool.false_ne_true, check_food_game_over]
      exact hplay

/-- Claim C4, counterexample to the claim as stated: in the discrete model a
wall-collision tick does not leave the session in a persistent game-over
state awaiting an explicit reset — the tick itself resets the game: the score
drops from 10 to 0 and the high score absorbs it, with no reset request. -/
theorem C4_counterexample :
    s4.check_wall_collision = true ∧
    s4.score = 10 ∧
    (s4.run_tick 0 0).score = 0 ∧
    (s4.run_tick 0 0).high_score = 10 := by
  decide

/-- Claim C4, witness: the amended flag dynamics applied to the concrete
states `gOver` (already over: update is a no-op) and `g0` (playing: the flag
after the update equals the collision check's result). -/
theorem C4_witness :
    gOver.update h0 (5, 5) 0 0 = gOver ∧
    (g0.update h0 (9, 9) 0 0).game_over =
      check_collision (((g0.advance_body h0 (9, 9)).trim_snake_length).check_food_collision
        9 9 0 0).points (9, 9) ∧
    (g0.reset_game 0 0).game_over = false :=
  ⟨(C4_game_over_flag h0 gOver (5, 5) 0 0).1 rfl,
   (C4_game_over_flag h0 g0 (9, 9) 0 0).2.1 rfl,
   (C4_game_over_flag h0 g0 (9, 9) 0 0).2.2⟩

/-- The value of `randint a b` always lands in the closed interval `[a, b]`. -/
theorem randint_mem (a b : ℤ) (s : ℕ) (hab : a ≤ b) :
    a ≤ randint a b s ∧ randint a b s ≤ b := by
  unfold randint
  have hpos : (0 : ℤ) < b - a + 1 := by omega
  have h1 := Int.emod_nonneg (s : ℤ) (ne_of_gt hpos)
  have h2 := Int.emod_lt_of_pos (s : ℤ) hpos
  omega

/-- Claim C6 (amended): after a reset, in both models the score is 0, any
game-over state is cleared, the high score becomes the maximum of the old
high score and the old score, the body is reinitialized (`points`/`lengths`
cleared and `allowed_length` back to 100 in the continuous model; segments
cleared in the discrete model), and the discrete tick delay returns to its
initial 0.1 — but the food is reinitialized (relocated within the configured
bounds) only in the continuous model: the discrete reset leaves the food
position untouched. -/
theorem C6_reset_state (g : SnakeGame α) (c : ClassicSnakeGame) (sx sy : ℕ) :
    ((g.reset_game sx sy).score = 0 ∧
     (g.reset_game sx sy).game_over = false ∧
     (g.reset_game sx sy).high_score = max g.high_score g.score ∧
     (g.reset_game sx sy).points = [] ∧
     (g.reset_game sx sy).lengths = [] ∧
     (g.reset_game sx sy).current_length = 0 ∧
     (g.reset_game sx sy).allowed_length = 100 ∧
     100 ≤ (g.reset_game sx sy).food_position.1 ∧
     (g.reset_game sx sy).food_position.1 ≤ 700 ∧
     100 ≤ (g.reset_game sx sy).food_position.2 ∧
     (g.reset_game sx sy).food_position.2 ≤ 500) ∧
    (c.reset_game.score = 0 ∧
     c.reset_game.high_score = max c.high_score c.score ∧
     c.reset_game.segments = [] ∧
     c.reset_game.delay = 1 / 10 ∧
     c.reset_game.head = (0, 0) ∧
     c.reset_game.direction = Direction.stop ∧
     c.reset_game.food = c.food) := by
  have hx := randint_mem 100 700 sx (by omega)
  have hy := randint_mem 100 500 sy (by omega)
  have hmax : ∀ h s : ℕ, (if h < s then s else h) = max h s := by
    intro h s
    rcases Nat.lt_or_ge h s with hlt | hge
    · rw [if_pos hlt, Nat.max_eq_right (Nat.le_of_lt hlt)]
    · rw [if_neg (Nat.not_lt.mpr hge), Nat.max_eq_left hge]
  refine ⟨⟨rfl, rfl, hmax g.high_score g.score, rfl, rfl, rfl, rfl,
      hx.1, hx.2, hy.1, hy.2⟩,
    rfl, hmax c.high_score c.score, rfl, rfl, rfl, rfl, rfl⟩

/-- Claim C6, counterexample to the claim as stated: the discrete-model reset
does not reinitialize the food — from `c6` (food parked at `(1000, 1000)`,
outside the spawn bounds `[-270, 270]` and different from the construction
position `(0, 100)`), the food is still at `(1000, 1000)` after the reset. -/
theorem C6_counterexample :
    c6.reset_game.food = (1000, 1000) ∧
    270 < c6.reset_game.food.1 ∧
    c6.reset_game.food ≠ ClassicSnakeGame.init.food := by
  decide

/-- Claim C7: whenever food consumption is detected, the continuous model
adds exactly 1 to the score, 30 to `allowed_length`, and relocates the food
within `[100, 700] × [100, 500]`; the discrete model adds exactly 10 to the
score, appends exactly one segment, relocates the food within
`[-270, 270] × [-270, 270]`, and decreases the tick delay by 0.002 exactly
when it is above the 0.05 floor. -/
theorem C7_food_consumption (g : SnakeGame α) (cx cy : ℤ) (sx sy : ℕ)
    (c : ClassicSnakeGame) (tx ty : ℕ) :
    (g.food_hit cx cy →
      ((g.check_food_collision cx cy sx sy).score = g.score + 1 ∧
       (g.check_food_collision cx cy sx sy).allowed_length = g.allowed_length + 30 ∧
       100 ≤ (g.check_food_collision cx cy sx sy).food_position.1 ∧
       (g.check_food_collision cx cy sx sy).food_position.1 ≤ 700 ∧
       100 ≤ (g.check_food_collision cx cy sx sy).food_position.2 ∧
       (g.check_food_collision cx cy sx sy).food_position.2 ≤ 500)) ∧
    (distSq c.head c.food < 400 →
      ((c.food_step tx ty).score = c.score + 10 ∧
       (c.food_step tx ty).segments.length = c.segments.length + 1 ∧
       -270 ≤ (c.food_step tx ty).food.1 ∧ (c.food_step tx ty).food.1 ≤ 270 ∧
       -270 ≤ (c.food_step tx ty).food.2 ∧ (c.food_step tx ty).food.2 ≤ 270 ∧
       (1 / 20 < c.delay → (c.food_step tx ty).delay = c.delay - 1 / 500) ∧
       (c.delay ≤ 1 / 20 → (c.food_step tx ty).delay = c.delay))) := by
  have hx := randint_mem 100 700 sx (by omega)
  have hy := randint_mem 100 500 sy (by omega)
  have htx := randint_mem (-270) 270 tx (by omega)
  have hty := randint_mem (-270) 270 ty (by omega)
  constructor
  · intro hfood
    unfold SnakeGame.check_food_collision
    rw [if_pos hfood]
    exact ⟨rfl, rfl, hx.1, hx.2, hy.1, hy.2⟩
  · intro _
    refine ⟨rfl, by simp [ClassicSnakeGame.food_step], htx.1, htx.2, hty.1, hty.2, ?_, ?_⟩
    · intro hd
      show (if 1 / 20 < c.delay then c.delay - 1 / 500 else c.delay) = c.delay - 1 / 500
      rw [if_pos hd]
    · intro hd
      show (if 1 / 20 < c.delay then c.delay - 1 / 500 else c.delay) = c.delay
      rw [if_neg (not_lt.mpr hd)]

/-- Claim C7, witness: consumption effects at the initial continuous state
(food at `(100, 100)`, head there too) and at the discrete state `c7`
(head within 20 units of the food). -/
theorem C7_witness :
    (((SnakeGame.init 0 0 : SnakeGame ℤ).check_food_collision 100 100 0 0).score =
        (SnakeGame.init 0 0 : SnakeGame ℤ).score + 1 ∧
      ((SnakeGame.init 0 0 : SnakeGame ℤ).check_food_collision 100 100 0 0).allowed_length =
        (SnakeGame.init 0 0 : SnakeGame ℤ).allowed_length + 30 ∧
      100 ≤ ((SnakeGame.init 0 0 : SnakeGame ℤ).check_food_collision 100 100 0 0).food_position.1 ∧
      ((SnakeGame.init 0 0 : SnakeGame ℤ).check_food_collision 100 100 0 0).food_position.1 ≤ 700 ∧
      100 ≤ ((SnakeGame.init 0 0 : SnakeGame ℤ).check_food_collision 100 100 0 0).food_position.2 ∧
      ((SnakeGame.init 0 0 : SnakeGame ℤ).check_food_collision 100 100 0 0).food_position.2 ≤ 500) ∧
    ((c7.food_step 0 0).score = c7.score + 10 ∧
      (c7.food_step 0 0).segments.length = c7.segments.length + 1 ∧
      -270 ≤ (c7.food_step 0 0).food.1 ∧ (c7.food_step 0 0).food.1 ≤ 270 ∧
      -270 ≤ (c7.food_step 0 0).food.2 ∧ (c7.food_step 0 0).food.2 ≤ 270 ∧
      (1 / 20 < c7.delay → (c7.food_step 0 0).delay = c7.delay - 1 / 500) ∧
      (c7.delay ≤ 1 / 20 → (c7.food_step 0 0).delay = c7.delay)) := by
  have h := C7_food_consumption (SnakeGame.init 0 0 : SnakeGame ℤ) 100 100 0 0 c7 0 0
  exact ⟨h.1 (by decide), h.2 (by decide)⟩

/-- Claim C9: in the discrete model a direction command that exactly reverses
the current heading leaves the whole state (in particular the stored
direction) unchanged, and every other direction command sets the direction to
the commanded one; the initial "stop" heading accepts every command. -/
theorem C9_direction_commands (c : ClassicSnakeGame) :
    (c.direction = Direction.down → c.go_up = c) ∧
    (c.direction ≠ Direction.down → c.go_up = { c with direction := Direction.up }) ∧
    (c.direction = Direction.up → c.go_down = c) ∧
    (c.direction ≠ Direction.up → c.go_down = { c with direction := Direction.down }) ∧
    (c.direction = Direction.right → c.go_left = c) ∧
    (c.direction ≠ Direction.right → c.go_left = { c with direction := Direction.left }) ∧
    (c.direction = Direction.left → c.go_right = c) ∧
    (c.direction ≠ Direction.left → c.go_right = { c with direction := Direction.right }) := by
  unfold ClassicSnakeGame.go_up ClassicSnakeGame.go_down
    ClassicSnakeGame.go_left ClassicSnakeGame.go_right
  refine ⟨?_, ?_, ?_, ?_, ?_, ?_, ?_, ?_⟩ <;> intro h
  · rw [if_pos h]
  · rw [if_neg h]
  · rw [if_pos h]
  · rw [if_neg h]
  · rw [if_pos h]
  · rw [if_neg h]
  · rw [if_pos h]
  · rw [if_neg h]

/-- Claim C9, witness: heading down, the up command is silently rejected;
from the initial stopped heading, the up command is accepted. -/
theorem C9_witness :
    cDown.go_up = cDown ∧
    ClassicSnakeGame.init.go_up = { ClassicSnakeGame.init with direction := Direction.up } :=
  ⟨(C9_direction_commands cDown).1 rfl,
   (C9_direction_commands ClassicSnakeGame.init).2.1 (by decide)⟩
